import Mathlib

/-!
Verification of the tournament-voting frontend (Glebza/competition_game).

The development shallowly embeds the client code:
* `dispatch` embeds the `ws.onmessage` switch of `hooks/useWebSocket.ts`;
* `tournamentHandlers` / `handleEvent` embed the handlers `TournamentGame`
  registers with `useWebSocket`, and `view` embeds its top-level render branch;
* `handleVote` embeds `TournamentGame.handleVote` (the `submitOk` argument
  stands for whether the awaited `submitVote` request resolves or rejects);
* `getVotePercentage` embeds `TournamentGame.getVotePercentage` (numbers as
  exact rationals, `Math.round` as Mathlib's `round`, i.e. half away toward +∞);
* `formatDuration` / `padStart` embed `GameComplete.formatDuration`;
* `submitVote` embeds `api/voting.ts` over an abstract server oracle;
* `startGameDisabled` embeds the `disabled` condition of the Start Game button
  in `GameLobby`; `startSessionLobby` models the (absent) backend handler from
  the spec.
-/

namespace CompGame

/-- An item of a competition as the client receives it (`Item` in
`TournamentGame.tsx`). -/
structure Item where
  id : String
  name : String
  image_url : String
deriving DecidableEq

/-- Payload of a `next_pair` event (`CurrentPair` in `TournamentGame.tsx`). -/
structure CurrentPair where
  round_number : Nat
  pair_index : Nat
  total_pairs : Nat
  item1 : Item
  item2 : Item
deriving DecidableEq

/-- Payload of a `vote_update` event: the tally for the current pair, a
finite mapping from item id to count (`data.vote_counts`). -/
structure VoteUpdateData where
  vote_counts : List (String × Nat)
deriving DecidableEq

/-- Payload of a `round_complete` event (`round_complete{roundNumber}`). -/
structure RoundCompleteData where
  round_number : Nat
deriving DecidableEq

/-- A player as the lobby receives it (`Player` in `GameLobby.tsx`). -/
structure Player where
  id : String
  nickname : String
  is_organizer : Bool
  joined_at : String
deriving DecidableEq

/-- Payload of a `player_joined` event (`data.player`). -/
structure PlayerJoinedData where
  player : Player
deriving DecidableEq

/-- The bracket snapshot carried by `game_complete`; the client only reads
`bracket.total_rounds` (`TournamentBracket.tsx`). -/
structure Bracket where
  total_rounds : Nat
deriving DecidableEq

/-- Payload of a `game_complete` event (`results` in `GameComplete.tsx`). -/
structure GameResults where
  winner : Item
  total_rounds : Nat
  total_votes : Nat
  duration_seconds : Nat
  bracket : Bracket
deriving DecidableEq

/-- A parsed WebSocket message, tagged by its `type` field, one constructor
per protocol event kind of the spec's event stream. -/
inductive Message where
  | player_joined (data : PlayerJoinedData)
  | game_started
  | vote_update (data : VoteUpdateData)
  | next_pair (data : CurrentPair)
  | round_complete (data : RoundCompleteData)
  | game_complete (data : GameResults)
deriving DecidableEq

/-- The optional callbacks a caller passes to `useWebSocket` (the `options`
object); a handler takes the event payload and updates client state `σ`. -/
structure Handlers (σ : Type) where
  onPlayerJoined : Option (PlayerJoinedData → σ → σ) := none
  onGameStarted : Option (σ → σ) := none
  onVoteUpdate : Option (VoteUpdateData → σ → σ) := none
  onNextPair : Option (CurrentPair → σ → σ) := none
  onRoundComplete : Option (RoundCompleteData → σ → σ) := none
  onGameComplete : Option (GameResults → σ → σ) := none

/-- Optional-call `options.onX?.(data)`: apply the handler when registered,
otherwise leave the state unchanged. -/
def applyHandler {α σ : Type} (h : Option (α → σ → σ)) (d : α) (s : σ) : σ :=
  match h with
  | some f => f d s
  | none => s

/-- The `ws.onmessage` dispatcher of `useWebSocket`: a `switch (data.type)`
with cases `player_joined`, `game_started`, `vote_update`, `next_pair` and
`game_complete`.  The source switch has no `round_complete` case (and no
default), so a `round_complete` message invokes no handler. -/
def dispatch {σ : Type} (options : Handlers σ) (m : Message) (s : σ) : σ :=
  match m with
  | .player_joined d => applyHandler options.onPlayerJoined d s
  | .game_started => match options.onGameStarted with
    | some f => f s
    | none => s
  | .vote_update d => applyHandler options.onVoteUpdate d s
  | .next_pair d => applyHandler options.onNextPair d s
  | .game_complete d => applyHandler options.onGameComplete d s
  | .round_complete _ => s

/-- The React state of `TournamentGame` (its `useState` hooks). -/
structure GameState where
  currentPair : Option CurrentPair
  voteCounts : List (String × Nat)
  totalRounds : Nat
  hasVoted : Bool
  selectedItem : Option String
  showRoundComplete : Bool
  showGameComplete : Bool
  gameResults : Option GameResults
deriving DecidableEq

/-- The handlers `TournamentGame` registers with `useWebSocket`.  It passes
`onNextPair`, `onVoteUpdate`, `onRoundComplete` and `onGameComplete`; it does
not pass `onPlayerJoined` or `onGameStarted`.  (`onRoundComplete` also arms a
3-second timeout that clears `showRoundComplete` again; that timer is a
real-time effect outside this embedding, and the handler is never reached by
`dispatch` anyway.) -/
def tournamentHandlers : Handlers GameState where
  onVoteUpdate := some fun d s => { s with voteCounts := d.vote_counts }
  onNextPair := some fun d s =>
    { s with currentPair := some d, voteCounts := [], hasVoted := false,
             selectedItem := none, showRoundComplete := false }
  onRoundComplete := some fun _ s => { s with showRoundComplete := true }
  onGameComplete := some fun d s =>
    { s with gameResults := some d, showGameComplete := true }

/-- One step of `TournamentGame`'s channel: the `useWebSocket` dispatcher
applied to the handlers `TournamentGame` registered. -/
def handleEvent (s : GameState) (m : Message) : GameState :=
  dispatch tournamentHandlers m s

/-- What `TournamentGame` renders, abstracted to its four top-level early
returns: the completed-game screen, the round-complete interstitial, the
waiting screen, and the voting screen. -/
inductive ClientView where
  | gameCompleteView (results : GameResults)
  | roundCompleteView
  | waitingView
  | votingView (pair : CurrentPair) (voteCounts : List (String × Nat))
      (hasVoted : Bool) (selectedItem : Option String)
deriving DecidableEq

/-- The render branch of `TournamentGame`: `showGameComplete && gameResults`
first, then `showRoundComplete`, then `!currentPair`, else the voting UI. -/
def view (s : GameState) : ClientView :=
  match s.showGameComplete, s.gameResults with
  | true, some r => .gameCompleteView r
  | _, _ =>
    if s.showRoundComplete then .roundCompleteView
    else
      match s.currentPair with
      | none => .waitingView
      | some p => .votingView p s.voteCounts s.hasVoted s.selectedItem

/-- The body of a vote request: the three fields `submitVote` posts. -/
structure VotePayload where
  item_id : String
  round_number : Nat
  pair_index : Nat
deriving DecidableEq

/-- `TournamentGame.handleVote`: returns early when `hasVoted` or no current
pair; otherwise records the selection optimistically, sends the vote request,
and on rejection rolls `hasVoted` and `selectedItem` back.  `submitOk` is
whether the awaited request resolves; the second component lists the vote
requests the call sent. -/
def handleVote (s : GameState) (itemId : String) (submitOk : Bool) :
    GameState × List VotePayload :=
  if s.hasVoted then (s, [])
  else
    match s.currentPair with
    | none => (s, [])
    | some p =>
      let req : VotePayload := ⟨itemId, p.round_number, p.pair_index⟩
      if submitOk then
        ({ s with selectedItem := some itemId, hasVoted := true }, [req])
      else
        ({ s with selectedItem := none, hasVoted := false }, [req])

/-- `Object.values(voteCounts).reduce((sum, count) => sum + count, 0)`. -/
def votesTotal (voteCounts : List (String × Nat)) : Nat :=
  (voteCounts.map (·.2)).sum

/-- `voteCounts[itemId] || 0`. -/
def lookupCount (voteCounts : List (String × Nat)) (itemId : String) : Nat :=
  match voteCounts.find? (fun e => e.1 == itemId) with
  | some e => e.2
  | none => 0

/-- `TournamentGame.getVotePercentage`: 0 when the total is 0, otherwise
`Math.round((voteCounts[itemId] || 0) / total * 100)`. -/
def getVotePercentage (voteCounts : List (String × Nat)) (itemId : String) : ℤ :=
  let total := votesTotal voteCounts
  if total = 0 then 0
  else round ((lookupCount voteCounts itemId : ℚ) / (total : ℚ) * 100)

/-- JavaScript `String.prototype.padStart` with a single pad character. -/
def padStart (s : String) (targetLength : Nat) (padChar : Char) : String :=
  if targetLength ≤ s.length then s
  else String.mk (List.replicate (targetLength - s.length) padChar) ++ s

/-- `GameComplete.formatDuration`: minutes `Math.floor(seconds / 60)`, a
colon, and `seconds % 60` padded with `'0'` to length 2. -/
def formatDuration (seconds : Nat) : String :=
  toString (seconds / 60) ++ ":" ++ padStart (toString (seconds % 60)) 2 '0'

/-- The claimed rendering of the seconds part: the decimal representation of
`m` left-padded with `'0'` to exactly two digits (for `m ≤ 99`). -/
def twoDigitPad (m : Nat) : String :=
  if m < 10 then "0" ++ toString m else toString m

/-- HTTP method of a client request. -/
inductive HttpMethod where
  | get
  | post
deriving DecidableEq

/-- A request the axios client issues (path relative to the api base URL). -/
structure ApiRequest (β : Type) where
  method : HttpMethod
  path : String
  body : β
deriving DecidableEq

/-- An axios response; the client code reads `response.data`. -/
structure ApiResponse (δ : Type) where
  data : δ

/-- `api.post(path, body)`: one POST request with the given path and body. -/
def apiPost {β : Type} (path : String) (body : β) : ApiRequest β :=
  ⟨HttpMethod.post, path, body⟩

/-- `submitVote` of `api/voting.ts`: posts `voteData` to
`/sessions/{sessionCode}/vote` and returns `response.data`; `server` is the
oracle resolving or rejecting the single request sent.  The first component
lists the requests issued. -/
def submitVote {ε δ : Type} (sessionCode : String) (voteData : VotePayload)
    (server : ApiRequest VotePayload → Except ε (ApiResponse δ)) :
    List (ApiRequest VotePayload) × Except ε δ :=
  let req := apiPost ("/sessions/" ++ sessionCode ++ "/vote") voteData
  ([req], (server req).map ApiResponse.data)

/-- The error taxonomy of the spec (§7). -/
inductive EngineError where
  | NotFound
  | InvalidState
  | PreconditionFailed
  | InvalidInput
  | ResourceExhausted
  | Conflict
deriving DecidableEq

/-- Modelled from the spec: the server-side `startSession` handler is not
among the frontend sources; per the spec, for a session in `Lobby` the start
action "requires `roster.size ≥ 2`; fails with `PreconditionFailed`
otherwise" and on success starts the game. -/
def startSessionLobby (rosterSize : Nat) : Except EngineError Unit :=
  if rosterSize < 2 then .error .PreconditionFailed else .ok ()

/-- The Start Game button's `disabled={players.length < 2}` in `GameLobby`. -/
def startGameDisabled (players : List Player) : Bool :=
  decide (players.length < 2)

/-- Concrete sample item. -/
def itemA : Item := { id := "A", name := "Alpha", image_url := "a.png" }

/-- Concrete sample item. -/
def itemB : Item := { id := "B", name := "Beta", image_url := "b.png" }

/-- Concrete first pair of round 1. -/
def pair0 : CurrentPair :=
  { round_number := 1, pair_index := 0, total_pairs := 2,
    item1 := itemA, item2 := itemB }

/-- The initial `TournamentGame` state (the `useState` initial values). -/
def s0 : GameState :=
  { currentPair := none, voteCounts := [], totalRounds := 5, hasVoted := false,
    selectedItem := none, showRoundComplete := false, showGameComplete := false,
    gameResults := none }

/-- State after the first `next_pair` event. -/
def sA : GameState := handleEvent s0 (Message.next_pair pair0)

/-- State after a successful vote for item `"A"` on `pair0`. -/
def sVoted : GameState := (handleVote sA "A" true).1

/-- Concrete bracket snapshot. -/
def bracket1 : Bracket := { total_rounds := 2 }

/-- Concrete game results with winner `itemA`. -/
def results1 : GameResults :=
  { winner := itemA, total_rounds := 2, total_votes := 10,
    duration_seconds := 125, bracket := bracket1 }

/-- Concrete game results with winner `itemB` (differs from `results1`). -/
def results2 : GameResults :=
  { winner := itemB, total_rounds := 2, total_votes := 11,
    duration_seconds := 130, bracket := bracket1 }

/-- State right after a `game_complete` event carrying `results1`. -/
def sDone : GameState := handleEvent s0 (Message.game_complete results1)

/-- A probe handler set registering only `onRoundComplete`, over state `Bool`:
the handler would set the flag to `true` if it were ever invoked. -/
def rcProbe : Handlers Bool :=
  { onRoundComplete := some fun _ _ => true }

/-- C1 (code bug): a `round_complete` message never invokes the registered
`onRoundComplete` handler.  `rcProbe` registers an `onRoundComplete` handler
that would set the state flag to `true`; `applyHandler` shows that invoking
the registered handler yields `true`, yet `dispatch` — whose switch has no
`round_complete` case — leaves the state at `false`. -/
theorem round_complete_never_dispatched :
    dispatch rcProbe (Message.round_complete ⟨1⟩) false = false ∧
    applyHandler rcProbe.onRoundComplete ⟨1⟩ false = true :=
  ⟨rfl, rfl⟩

/-- C2 (counterexample): in the state `sVoted` reached after a successful
vote for `"A"`, a further `handleVote` with `"B"` submits nothing (its
request list is empty) and the selection remains `"A"` — the revote is
ignored instead of overwriting the previous choice as the claim states. -/
theorem revote_ignored_cex :
    (handleVote sVoted "B" true).2 = [] ∧
    (handleVote sVoted "B" true).1.selectedItem = some "A" :=
  ⟨rfl, rfl⟩

/-- C2 (amended): once the player has voted on the current pair
(`hasVoted = true`), any further call to `handleVote` is ignored: it sends no
vote request and leaves the client state unchanged. -/
theorem handleVote_locked_after_vote (s : GameState) (itemId : String)
    (submitOk : Bool) (h : s.hasVoted = true) :
    handleVote s itemId submitOk = (s, []) := by
  simp [handleVote, h]

/-- Witness for `handleVote_locked_after_vote` at the concrete voted state
`sVoted`. -/
theorem handleVote_locked_after_vote_witness :
    sVoted.hasVoted = true ∧ handleVote sVoted "C" true = (sVoted, []) :=
  ⟨rfl, handleVote_locked_after_vote sVoted "C" true rfl⟩

/-- C4: handling a `next_pair` event resets the vote state completely:
`voteCounts` becomes empty, `hasVoted` becomes `false`, `selectedItem`
becomes `none`, and the current pair becomes the event's payload. -/
theorem next_pair_resets_vote_state (s : GameState) (d : CurrentPair) :
    (handleEvent s (Message.next_pair d)).voteCounts = [] ∧
    (handleEvent s (Message.next_pair d)).hasVoted = false ∧
    (handleEvent s (Message.next_pair d)).selectedItem = none ∧
    (handleEvent s (Message.next_pair d)).currentPair = some d :=
  ⟨rfl, rfl, rfl, rfl⟩

/-- C5: after a first accepted vote for `itemId`, calling `handleVote` again
with the same item changes nothing: the state stays that of the single call
and the combined list of outgoing vote requests equals that of the single
call. -/
theorem same_vote_twice_idempotent (s : GameState) (p : CurrentPair)
    (itemId : String) (ok2 : Bool)
    (h1 : s.hasVoted = false) (h2 : s.currentPair = some p) :
    handleVote (handleVote s itemId true).1 itemId ok2 =
      ((handleVote s itemId true).1, []) ∧
    (handleVote s itemId true).2 ++
        (handleVote (handleVote s itemId true).1 itemId ok2).2 =
      (handleVote s itemId true).2 := by
  have h3 : (handleVote s itemId true).1.hasVoted = true := by
    simp [handleVote, h1, h2]
  have hlocked : ∀ t : GameState, t.hasVoted = true →
      handleVote t itemId ok2 = (t, []) := by
    intro t ht
    simp [handleVote, ht]
  refine ⟨hlocked _ h3, ?_⟩
  rw [hlocked _ h3]
  simp

/-- Witness for `same_vote_twice_idempotent` at the concrete state `sA`. -/
theorem same_vote_twice_idempotent_witness :
    handleVote (handleVote sA "A" true).1 "A" true =
      ((handleVote sA "A" true).1, []) :=
  (same_vote_twice_idempotent sA pair0 "A" true rfl rfl).1

/-- C7 (counterexample): a second `game_complete` event does change the
completed-game view — after `game_complete results1`, handling
`game_complete results2` replaces the displayed results, contradicting the
claim that no later event changes the completed-game view. -/
theorem second_game_complete_changes_view :
    view (handleEvent (handleEvent s0 (Message.game_complete results1))
        (Message.game_complete results2)) ≠
      view (handleEvent s0 (Message.game_complete results1)) := by
  decide

/-- C7 (amended): once the client shows the completed game (`showGameComplete`
with results `r`), handling any further event other than a `game_complete`
leaves the completed-game view fixed at `r`; the client does not itself guard
against a duplicate `game_complete` (that uniqueness is the server's
guarantee). -/
theorem completed_view_frozen (s : GameState) (r : GameResults) (e : Message)
    (hc : s.showGameComplete = true) (hr : s.gameResults = some r)
    (he : ∀ d, e ≠ Message.game_complete d) :
    view s = ClientView.gameCompleteView r ∧
    view (handleEvent s e) = ClientView.gameCompleteView r := by
  cases s with
  | mk cp vc tr hv si srcFlag sgc gr =>
    simp only [] at hc hr
    subst hc hr
    cases e with
    | player_joined d => exact ⟨rfl, rfl⟩
    | game_started => exact ⟨rfl, rfl⟩
    | vote_update d => exact ⟨rfl, rfl⟩
    | next_pair d => exact ⟨rfl, rfl⟩
    | round_complete d => exact ⟨rfl, rfl⟩
    | game_complete d => exact absurd rfl (he d)

/-- Witness for `completed_view_frozen`: at the concrete completed state
`sDone`, a later `vote_update` leaves the view at `results1`. -/
theorem completed_view_frozen_witness :
    view (handleEvent sDone (Message.vote_update ⟨[("A", 1)]⟩)) =
      ClientView.gameCompleteView results1 :=
  (completed_view_frozen sDone results1 (Message.vote_update ⟨[("A", 1)]⟩)
    rfl rfl (fun _ h => Message.noConfusion h)).2

/-- C8: when the guard passes (not yet voted, a pair is shown, nothing
selected), a rejected `submitVote` rolls the state back to exactly the
pre-call state (the request was still sent once), while a resolved request
leaves the optimistic update in place: `hasVoted` true and the chosen item
selected. -/
theorem vote_failure_atomic (s : GameState) (p : CurrentPair) (itemId : String)
    (h1 : s.hasVoted = false) (h2 : s.currentPair = some p)
    (h3 : s.selectedItem = none) :
    handleVote s itemId false = (s, [⟨itemId, p.round_number, p.pair_index⟩]) ∧
    (handleVote s itemId true).1 =
      { s with selectedItem := some itemId, hasVoted := true } := by
  cases s with
  | mk cp vc tr hv si srcFlag sgc gr =>
    simp only [] at h1 h2 h3
    subst h1 h2 h3
    exact ⟨rfl, rfl⟩

/-- Witness for `vote_failure_atomic` at the concrete state `sA`. -/
theorem vote_failure_atomic_witness :
    handleVote sA "A" false = (sA, [⟨"A", 1, 0⟩]) :=
  (vote_failure_atomic sA pair0 "A" rfl rfl rfl).1

/-- C3: starting needs at least 2 players — the (spec-modelled) server
`startSessionLobby` fails with `PreconditionFailed` exactly when the roster
has fewer than 2 players and succeeds exactly when it has 2 or more, and the
lobby's Start Game button is enabled exactly when `players.length ≥ 2`. -/
theorem start_requires_two_players :
    (∀ rosterSize : Nat,
      (startSessionLobby rosterSize =
          Except.error EngineError.PreconditionFailed ↔ rosterSize < 2) ∧
      (startSessionLobby rosterSize = Except.ok () ↔ 2 ≤ rosterSize)) ∧
    (∀ players : List Player,
      (startGameDisabled players = false ↔ 2 ≤ players.length)) := by
  constructor
  · intro n
    by_cases h : n < 2 <;> simp [startSessionLobby, h] <;> omega
  · intro players
    simp [startGameDisabled]

/-- C6: `submitVote` sends exactly one POST request, to
`/sessions/{sessionCode}/vote`, whose body is exactly the three fields of its
argument, and its outcome is the server's response mapped to its `data`
(success) or the server's error, propagated unchanged. -/
theorem submitVote_spec {ε δ : Type} (sessionCode : String)
    (voteData : VotePayload)
    (server : ApiRequest VotePayload → Except ε (ApiResponse δ)) :
    (submitVote sessionCode voteData server).1 =
      [{ method := HttpMethod.post,
         path := "/sessions/" ++ sessionCode ++ "/vote",
         body := { item_id := voteData.item_id,
                   round_number := voteData.round_number,
                   pair_index := voteData.pair_index } }] ∧
    (submitVote sessionCode voteData server).2 =
      (server (apiPost ("/sessions/" ++ sessionCode ++ "/vote") voteData)).map
        ApiResponse.data :=
  ⟨rfl, rfl⟩

/-- The count looked up for an item never exceeds the total of all counts. -/
theorem lookupCount_le_votesTotal (voteCounts : List (String × Nat))
    (itemId : String) :
    lookupCount voteCounts itemId ≤ votesTotal voteCounts := by
  induction voteCounts with
  | nil => simp [lookupCount, votesTotal]
  | cons hd tl ih =>
    unfold lookupCount votesTotal at ih ⊢
    by_cases hb : (hd.1 == itemId) = true
    · rw [List.find?_cons_of_pos tl hb]
      simp only [List.map_cons, List.sum_cons]
      omega
    · rw [List.find?_cons_of_neg tl hb]
      simp only [List.map_cons, List.sum_cons]
      omega

/-- C9: `getVotePercentage` is total and in range: it always returns an
integer between 0 and 100, and when the counts sum to 0 (in particular for
the empty mapping) it returns 0 instead of dividing by zero. -/
theorem getVotePercentage_in_range (voteCounts : List (String × Nat))
    (itemId : String) :
    0 ≤ getVotePercentage voteCounts itemId ∧
    getVotePercentage voteCounts itemId ≤ 100 ∧
    (votesTotal voteCounts = 0 → getVotePercentage voteCounts itemId = 0) := by
  by_cases h : votesTotal voteCounts = 0
  · simp [getVotePercentage, h]
  · have htpos : 0 < votesTotal voteCounts := Nat.pos_of_ne_zero h
    have htQ : (0 : ℚ) < (votesTotal voteCounts : ℚ) := by exact_mod_cast htpos
    have hcle : (lookupCount voteCounts itemId : ℚ) ≤
        (votesTotal voteCounts : ℚ) := by
      exact_mod_cast lookupCount_le_votesTotal voteCounts itemId
    have hval : getVotePercentage voteCounts itemId =
        round ((lookupCount voteCounts itemId : ℚ) /
          (votesTotal voteCounts : ℚ) * 100) := by
      simp [getVotePercentage, h]
    have hx0 : (0 : ℚ) ≤ (lookupCount voteCounts itemId : ℚ) /
        (votesTotal voteCounts : ℚ) * 100 := by positivity
    have hx100 : (lookupCount voteCounts itemId : ℚ) /
        (votesTotal voteCounts : ℚ) * 100 ≤ 100 := by
      rw [div_mul_eq_mul_div, div_le_iff₀ htQ]
      nlinarith [hcle]
    rw [hval]
    refine ⟨?_, ?_, fun h0 => absurd h0 h⟩
    · rw [round_eq]
      refine Int.le_floor.mpr ?_
      push_cast
      linarith
    · rw [round_eq]
      rw [Int.floor_le_iff]
      push_cast
      linarith

/-- Witness for `getVotePercentage_in_range` at concrete mappings. -/
theorem getVotePercentage_in_range_witness :
    getVotePercentage [] "x" = 0 ∧ 0 ≤ getVotePercentage [("A", 3)] "A" :=
  ⟨(getVotePercentage_in_range [] "x").2.2 rfl,
    (getVotePercentage_in_range [("A", 3)] "A").1⟩

/-- For every possible seconds remainder, the padded rendering agrees with
the two-digit decimal rendering. -/
theorem padStart_two_digits :
    ∀ m : Nat, m < 60 → padStart (toString m) 2 '0' = twoDigitPad m := by
  decide

/-- C10: `formatDuration s` is the decimal representation of `s / 60`
(floored), a colon, and `s % 60` rendered in decimal left-padded with `'0'`
to exactly two digits. -/
theorem formatDuration_spec (seconds : Nat) :
    formatDuration seconds =
      toString (seconds / 60) ++ ":" ++ twoDigitPad (seconds % 60) := by
  unfold formatDuration
  rw [padStart_two_digits (seconds % 60) (Nat.mod_lt seconds (by decide))]

end CompGame
